import Mathlib

/-!
Verification of the pump.fun chat MCP bridge core, embedded shallowly from
src/mcp-server.ts: the message buffer maintained by the event listeners of
connectToChat, the connection flag, and the four tool handlers dispatched by
setupHandlers. Stateful code is modelled by explicit state passing; the
event listeners become a step function on the server state; tool dispatch
becomes a function into Except (a thrown Error is Except.error).
-/

namespace PumpFunChat

/-- A chat message as delivered by the collaborator events: username,
message text, and a timestamp instant. The timestamp is modelled as a
natural number; its locale rendering (toLocaleTimeString) is an abstract
function passed to the handlers, since its output depends on the host
locale. -/
structure ChatMessage where
  username : String
  message : String
  timestamp : Nat
deriving Repr, DecidableEq

/-- The bridge state: the mutable fields of class PumpFunChatServer
(token, isConnected, messageBuffer) together with the message history held
inside the external PumpChatClient collaborator instance, which the read
handlers access through getMessages and getLatestMessage. -/
structure ServerState where
  token : String
  isConnected : Bool
  messageBuffer : List ChatMessage
  clientMessages : List ChatMessage
deriving Repr, DecidableEq

/-- The state right after the constructor ran: the given token, not yet
connected, empty message buffer, and a freshly constructed collaborator
holding no messages. -/
def initState (token : String) : ServerState :=
  { token := token, isConnected := false, messageBuffer := [], clientMessages := [] }

/-- The collaborator events subscribed to in connectToChat. Error payloads
are modelled by their relevant string content (for serverError, the error
field that the listener inspects). -/
inductive Event where
  | connected : Event
  | message : ChatMessage → Event
  | messageHistory : List ChatMessage → Event
  | error : String → Event
  | serverError : String → Event
  | disconnected : Event
deriving Repr, DecidableEq

/-- One event-handling turn of the listeners registered in connectToChat:
on connected set the flag; on message push onto messageBuffer and, if the
length then exceeds 1000, shift off the head; messageHistory, error and
serverError only log; on disconnected clear the flag. The internal
retention of the collaborator (clientMessages) is the concern of the
external component and is left unchanged by the bridge listeners. -/
def step (st : ServerState) : Event → ServerState
  | Event.connected => { st with isConnected := true }
  | Event.message m =>
    let buf := st.messageBuffer ++ [m]
    { st with messageBuffer := if buf.length > 1000 then buf.drop 1 else buf }
  | Event.messageHistory _ => st
  | Event.error _ => st
  | Event.serverError _ => st
  | Event.disconnected => { st with isConnected := false }

/-- One content block of an MCP tool result. -/
structure ContentBlock where
  type : String
  text : String
deriving Repr, DecidableEq

/-- An MCP tool result: a list of content blocks. -/
structure ToolResult where
  content : List ContentBlock
deriving Repr, DecidableEq

/-- The result shape every handler of mcp-server.ts produces: a single
content block of type text. -/
def textResult (s : String) : ToolResult :=
  { content := [{ type := "text", text := s }] }

/-- Modelled from the spec: the collaborator accessor getMessages(limit) of
PumpChatClient (src/pump-chat-client.ts, not present under src/), described
in the spec as recent(limit): the most recent limit messages in
chronological order; a limit of 0 or negative returns nothing; a limit that
is omitted or larger than the current length returns the whole history. -/
def getMessages (msgs : List ChatMessage) (limit : Option Int) : List ChatMessage :=
  match limit with
  | none => msgs
  | some l => if l ≤ 0 then [] else msgs.drop (msgs.length - l.toNat)

/-- Modelled from the spec: the collaborator accessor getLatestMessage() of
PumpChatClient (not present under src/): the most recent message of its
history, or absent when there is none. -/
def getLatestMessage (msgs : List ChatMessage) : Option ChatMessage :=
  msgs.getLast?

/-- The per-message line format of handleReadMessages and
handleGetLatestMessage; timeStr abstracts new Date(t).toLocaleTimeString(). -/
def formatLine (timeStr : Nat → String) (m : ChatMessage) : String :=
  "[" ++ timeStr m.timestamp ++ "] " ++ m.username ++ ": " ++ m.message

/-- The not-connected informational text of handleReadMessages. -/
def notConnectedReadText : String :=
  "Not connected to the chat room. The connection may still be establishing or has failed."

/-- The empty-buffer informational text of handleReadMessages. -/
def noMessagesReadText : String :=
  "No messages available. The chat might be quiet or still loading."

/-- The not-connected informational text of handleGetLatestMessage. -/
def notConnectedLatestText : String :=
  "Not connected to the chat room."

/-- The empty-buffer informational text of handleGetLatestMessage. -/
def noMessagesLatestText : String :=
  "No messages available."

/-- The cannot-send informational text of handleSendMessage. -/
def cannotSendText : String :=
  "Cannot send message - not connected to the chat room."

/-- The acknowledgment text of handleSendMessage on the connected path. -/
def sentText (msg : String) : String :=
  "Message sent: \"" ++ msg ++ "\"\nNote: Messages require pump.fun authentication to be delivered."

/-- The ReadMessages handler: not-connected text when the flag is down,
otherwise the messages obtained from the collaborator accessor
getMessages(limit), either the no-messages text or a header line followed
by one formatted line per message. -/
def handleReadMessages (timeStr : Nat → String) (st : ServerState) (limit : Option Int) :
    ToolResult :=
  if !st.isConnected then
    textResult notConnectedReadText
  else
    let messages := getMessages st.clientMessages limit
    if messages.length = 0 then
      textResult noMessagesReadText
    else
      let formattedMessages := String.intercalate "\n" (messages.map (formatLine timeStr))
      textResult ("Messages from " ++ st.token ++ " (showing " ++ toString messages.length
        ++ " messages):\n\n" ++ formattedMessages)

/-- The GetLatestMessage handler: not-connected text when the flag is down,
otherwise the message obtained from the collaborator accessor
getLatestMessage(), formatted, or the no-messages text when absent. -/
def handleGetLatestMessage (timeStr : Nat → String) (st : ServerState) : ToolResult :=
  if !st.isConnected then
    textResult notConnectedLatestText
  else
    match getLatestMessage st.clientMessages with
    | none => textResult noMessagesLatestText
    | some latestMessage =>
      textResult ("Latest message:\n" ++ formatLine timeStr latestMessage)

/-- The SendMessage handler, with its outward effect made explicit: the
second component is some m exactly when client.sendMessage(m) is invoked,
none when it is not. -/
def handleSendMessage (st : ServerState) (message : String) : ToolResult × Option String :=
  if !st.isConnected then
    (textResult cannotSendText, none)
  else
    (textResult (sentText message), some message)

/-- The GetStatus handler: token, connection label, and the length of the
own message buffer of the bridge. -/
def handleGetStatus (st : ServerState) : ToolResult :=
  textResult ("Token: " ++ st.token ++ "\nConnection Status: "
    ++ (if st.isConnected then "Connected" else "Disconnected")
    ++ "\nMessages in buffer: " ++ toString st.messageBuffer.length)

/-- The loosely typed argument record of a CallTool request, as cast by the
dispatch: an optional numeric limit (ReadMessagesArgs) and a message string
(SendMessageArgs). -/
structure ToolArgs where
  limit : Option Int
  message : String
deriving Repr, DecidableEq

/-- The four tool names declared by the ListTools handler. -/
def knownToolNames : List String :=
  ["PumpFunChat_ReadMessages", "PumpFunChat_GetLatestMessage",
   "PumpFunChat_SendMessage", "PumpFunChat_GetStatus"]

/-- The CallTool switch of setupHandlers: route to the matching handler, or
throw (Except.error) on an unknown tool name. -/
def dispatch (timeStr : Nat → String) (st : ServerState) (name : String) (args : ToolArgs) :
    Except String ToolResult :=
  if name = "PumpFunChat_ReadMessages" then
    Except.ok (handleReadMessages timeStr st args.limit)
  else if name = "PumpFunChat_GetLatestMessage" then
    Except.ok (handleGetLatestMessage timeStr st)
  else if name = "PumpFunChat_SendMessage" then
    Except.ok (handleSendMessage st args.message).1
  else if name = "PumpFunChat_GetStatus" then
    Except.ok (handleGetStatus st)
  else
    Except.error ("Unknown tool: " ++ name)

/-- Recognizer for message events, used to state which events feed the
message buffer. -/
def isMessageEvent : Event → Bool
  | Event.message _ => true
  | _ => false

/-- The i-th numbered test message: distinct username, text and timestamp,
so FIFO eviction can be checked by identity. -/
def msgNo (i : Nat) : ChatMessage :=
  { username := "user" ++ toString i, message := "text" ++ toString i, timestamp := i }

/-- Messages number 1 through 1001 in timestamp order. -/
def msgs1001 : List ChatMessage :=
  (List.range 1001).map (fun i => msgNo (i + 1))

/-- A connected state with empty buffers, for concrete instantiations. -/
def stConn : ServerState :=
  { initState "T" with isConnected := true }

/-- A connected state whose collaborator history holds one message, for
concrete instantiations of the read path. -/
def stC6 : ServerState :=
  { token := "W", isConnected := true, messageBuffer := [],
    clientMessages := [{ username := "bob", message := "yo", timestamp := 7 }] }

/-- A concrete event sequence containing every non-message event kind,
including an authentication-failure serverError. -/
def eventsC10 : List Event :=
  [Event.connected, Event.messageHistory [], Event.error "boom",
   Event.serverError "Authentication required", Event.disconnected]

/-- What ReadMessages would return if its messages were taken from the
own message buffer of the bridge core, as the spec sentence behind C1
states; written only for comparison with handleReadMessages, which reads
the collaborator accessor instead. -/
def handleReadMessagesFromOwnBuffer (timeStr : Nat → String) (st : ServerState)
    (limit : Option Int) : ToolResult :=
  if !st.isConnected then
    textResult notConnectedReadText
  else
    let messages := getMessages st.messageBuffer limit
    if messages.length = 0 then
      textResult noMessagesReadText
    else
      let formattedMessages := String.intercalate "\n" (messages.map (formatLine timeStr))
      textResult ("Messages from " ++ st.token ++ " (showing " ++ toString messages.length
        ++ " messages):\n\n" ++ formattedMessages)

/-- A concrete message for the C1 counterexample state. -/
def mC1 : ChatMessage :=
  { username := "alice", message := "hi", timestamp := 5 }

/-- A concrete connected state whose bridge buffer holds one message while
the collaborator history is empty (as happens in reality once the two
retention windows diverge). -/
def stC1 : ServerState :=
  { token := "T", isConnected := true, messageBuffer := [mC1], clientMessages := [] }

/-- C1 counterexample: in a connected state whose own message buffer is
nonempty but whose collaborator history is empty, ReadMessages answers the
no-messages text — its result is not taken from the own buffer of the
bridge, contradicting the claim. -/
theorem C1_counterexample :
    handleReadMessages toString stC1 none = textResult noMessagesReadText ∧
    handleReadMessages toString stC1 none ≠
      handleReadMessagesFromOwnBuffer toString stC1 none ∧
    stC1.messageBuffer ≠ [] := by
  refine ⟨rfl, ?_, by decide⟩
  decide

/-- C1 (amended): ReadMessages and GetLatestMessage take their messages
from the collaborator accessors getMessages(limit)/getLatestMessage(), not
from the own message buffer of the bridge core: their results are invariant
under arbitrary replacement of messageBuffer, while replacing the
collaborator history by the own buffer turns handleReadMessages into the
buffer-based reading. -/
theorem C1_amended_reads_collaborator :
    ∀ (timeStr : Nat → String) (st : ServerState) (buf : List ChatMessage)
      (limit : Option Int),
      handleReadMessages timeStr { st with messageBuffer := buf } limit
        = handleReadMessages timeStr st limit ∧
      handleGetLatestMessage timeStr { st with messageBuffer := buf }
        = handleGetLatestMessage timeStr st ∧
      handleReadMessages timeStr { st with clientMessages := st.messageBuffer } limit
        = handleReadMessagesFromOwnBuffer timeStr st limit := by
  intro timeStr st buf limit
  exact ⟨rfl, rfl, rfl⟩

/-- C7: a messageHistory event leaves the state unchanged, and error and
serverError events (any payload, including the authentication-failure
serverError) leave the state unchanged as well. -/
theorem C7_frame_events :
    ∀ (st : ServerState) (ms : List ChatMessage) (e1 e2 : String),
      step st (Event.messageHistory ms) = st ∧
      step st (Event.error e1) = st ∧
      step st (Event.serverError e2) = st := by
  intro st ms e1 e2
  exact ⟨rfl, rfl, rfl⟩

/-- The buffer after a message event, written out. -/
lemma step_message_buffer (st : ServerState) (m : ChatMessage) :
    (step st (Event.message m)).messageBuffer =
      if st.messageBuffer.length + 1 > 1000 then (st.messageBuffer ++ [m]).drop 1
      else st.messageBuffer ++ [m] := by
  simp [step]

/-- A single event-handling turn keeps the buffer within capacity. -/
lemma step_buffer_length_le (st : ServerState) (e : Event)
    (h : st.messageBuffer.length ≤ 1000) :
    (step st e).messageBuffer.length ≤ 1000 := by
  cases e with
  | message m =>
    rw [step_message_buffer]
    split
    · simp only [List.length_drop, List.length_append, List.length_cons, List.length_nil]
      omega
    · rename_i hle
      simp only [List.length_append, List.length_cons, List.length_nil]
      omega
  | connected => exact h
  | messageHistory ms => exact h
  | error e => exact h
  | serverError e => exact h
  | disconnected => exact h

/-- Folding any event sequence keeps the buffer within capacity. -/
lemma foldl_step_buffer_length_le (events : List Event) (st : ServerState)
    (h : st.messageBuffer.length ≤ 1000) :
    (events.foldl step st).messageBuffer.length ≤ 1000 := by
  induction events generalizing st with
  | nil => exact h
  | cons e rest ih => exact ih _ (step_buffer_length_le st e h)

/-- Closed form of the buffer after a run of message events: the suffix of
the concatenated stream that fits in the 1000-entry capacity. -/
lemma foldl_message_buffer (msgs : List ChatMessage) (st : ServerState)
    (h : st.messageBuffer.length ≤ 1000) :
    ((msgs.map Event.message).foldl step st).messageBuffer
      = (st.messageBuffer ++ msgs).drop (st.messageBuffer.length + msgs.length - 1000) := by
  induction msgs generalizing st with
  | nil =>
    have hz : st.messageBuffer.length - 1000 = 0 := by omega
    simp [hz]
  | cons m rest ih =>
    have h' := step_buffer_length_le st (Event.message m) h
    simp only [List.map_cons, List.foldl_cons]
    rw [ih _ h']
    by_cases hcap : st.messageBuffer.length + 1 > 1000
    · have hbuf : (step st (Event.message m)).messageBuffer
          = (st.messageBuffer ++ [m]).drop 1 := by
        rw [step_message_buffer, if_pos hcap]
      have hlen : st.messageBuffer.length = 1000 := by omega
      rw [hbuf]
      have hidx : ((st.messageBuffer ++ [m]).drop 1).length + rest.length - 1000
          = rest.length := by
        simp only [List.length_drop, List.length_append, List.length_cons, List.length_nil]
        omega
      rw [hidx]
      rw [← List.drop_append_of_le_length (by simp)]
      rw [List.drop_drop]
      rw [List.append_assoc, List.singleton_append]
      have hidx2 : st.messageBuffer.length + (m :: rest).length - 1000
          = rest.length + 1 := by
        simp only [List.length_cons]
        omega
      rw [hidx2, Nat.add_comm]
    · have hbuf : (step st (Event.message m)).messageBuffer
          = st.messageBuffer ++ [m] := by
        rw [step_message_buffer, if_neg hcap]
      rw [hbuf]
      rw [List.append_assoc, List.singleton_append]
      have hidx : (st.messageBuffer ++ [m]).length + rest.length - 1000
          = st.messageBuffer.length + (m :: rest).length - 1000 := by
        simp only [List.length_append, List.length_cons, List.length_nil]
        omega
      rw [hidx]

/-- C2: the buffer never exceeds 1000 entries after any event sequence; a
message event appends to the tail and, exactly when the buffer is full,
evicts exactly the head element, preserving order without reordering or
deduplication; and after messages number 1 through 1001 the buffer holds
exactly messages number 2 through 1001 in order. -/
theorem C2_buffer_invariants :
    (∀ (events : List Event) (tok : String),
      ((events.foldl step (initState tok)).messageBuffer.length ≤ 1000)) ∧
    (∀ (st : ServerState) (m : ChatMessage), st.messageBuffer.length ≤ 1000 →
      (step st (Event.message m)).messageBuffer =
        if st.messageBuffer.length < 1000 then st.messageBuffer ++ [m]
        else st.messageBuffer.drop 1 ++ [m]) ∧
    ((msgs1001.map Event.message).foldl step (initState "T")).messageBuffer
      = msgs1001.drop 1 := by
  refine ⟨?_, ?_, ?_⟩
  · intro events tok
    exact foldl_step_buffer_length_le events _ (by simp [initState])
  · intro st m h
    rw [step_message_buffer]
    by_cases hcap : st.messageBuffer.length + 1 > 1000
    · have hlen : st.messageBuffer.length = 1000 := by omega
      rw [if_pos hcap, if_neg (by omega)]
      rw [List.drop_append_of_le_length (by omega)]
    · rw [if_neg hcap, if_pos (by omega)]
  · rw [foldl_message_buffer _ _ (by simp [initState])]
    have hlen : msgs1001.length = 1001 := by simp [msgs1001]
    simp [initState, hlen]

/-- C2 witness: a concrete instance of the append characterization — from a
one-element buffer a message event simply appends. -/
theorem C2_witness :
    (step { initState "T" with messageBuffer := [msgNo 1] }
        (Event.message (msgNo 2))).messageBuffer
      = [msgNo 1, msgNo 2] := by
  have h := C2_buffer_invariants.2.1
    { initState "T" with messageBuffer := [msgNo 1] } (msgNo 2) (by simp)
  rw [if_pos (by simp)] at h
  simpa using h

/-- C3: dispatch returns a result exactly for the four declared tool names
and throws (a request-level error, not a tool-result payload) exactly for
every other name — the only hard failure of the router. -/
theorem C3_unknown_tool :
    ∀ (timeStr : Nat → String) (st : ServerState) (name : String) (args : ToolArgs),
      ((∃ r, dispatch timeStr st name args = Except.ok r) ↔ name ∈ knownToolNames) ∧
      ((∃ e, dispatch timeStr st name args = Except.error e) ↔ name ∉ knownToolNames) := by
  intro f st nm args
  by_cases h1 : nm = "PumpFunChat_ReadMessages"
  · subst h1; simp [dispatch, knownToolNames]
  · by_cases h2 : nm = "PumpFunChat_GetLatestMessage"
    · subst h2; simp [dispatch, knownToolNames]
    · by_cases h3 : nm = "PumpFunChat_SendMessage"
      · subst h3; simp [dispatch, knownToolNames]
      · by_cases h4 : nm = "PumpFunChat_GetStatus"
        · subst h4; simp [dispatch, knownToolNames]
        · simp [dispatch, knownToolNames, h1, h2, h3, h4]

/-- C4: while disconnected, SendMessage answers the cannot-send text and
the collaborator send is not invoked; while connected, the message is
forwarded verbatim with the acknowledgment text; the send is invoked
exactly in the connected case. -/
theorem C4_send_disconnected :
    ∀ (st : ServerState) (msg : String),
      (st.isConnected = false →
        handleSendMessage st msg = (textResult cannotSendText, none)) ∧
      (st.isConnected = true →
        handleSendMessage st msg = (textResult (sentText msg), some msg)) ∧
      ((handleSendMessage st msg).2 ≠ none ↔ st.isConnected = true) := by
  intro st msg
  cases h : st.isConnected <;> simp [handleSendMessage, h]

/-- C4 witness: the two branches at concrete states and a concrete message. -/
theorem C4_witness :
    handleSendMessage (initState "T") "hello" = (textResult cannotSendText, none) ∧
    handleSendMessage stConn "hello" = (textResult (sentText "hello"), some "hello") :=
  ⟨(C4_send_disconnected (initState "T") "hello").1 rfl,
   (C4_send_disconnected stConn "hello").2.1 rfl⟩

/-- Event handling never changes the token field. -/
lemma step_token (st : ServerState) (e : Event) : (step st e).token = st.token := by
  cases e <;> rfl

/-- Folding any event sequence never changes the token field. -/
lemma foldl_step_token (events : List Event) (st : ServerState) :
    (events.foldl step st).token = st.token := by
  induction events generalizing st with
  | nil => rfl
  | cons e rest ih => rw [List.foldl_cons, ih, step_token]

/-- C5: in every reachable state, GetStatus succeeds with the construction
token, the label matching the connection flag, and the exact buffer length;
and in the fresh state for room R it reports R, Disconnected, and count 0. -/
theorem C5_get_status :
    ∀ (tok : String) (events : List Event),
      handleGetStatus (events.foldl step (initState tok))
        = textResult ("Token: " ++ tok ++ "\nConnection Status: "
            ++ (if (events.foldl step (initState tok)).isConnected then "Connected"
                else "Disconnected")
            ++ "\nMessages in buffer: "
            ++ toString (events.foldl step (initState tok)).messageBuffer.length) ∧
      handleGetStatus (initState "R")
        = textResult "Token: R\nConnection Status: Disconnected\nMessages in buffer: 0" := by
  intro tok events
  constructor
  · unfold handleGetStatus
    rw [foldl_step_token]
    rfl
  · rfl

/-- C6: ReadMessages answers the not-connected text while disconnected (a
successful result), the no-messages text when the selected window is empty,
and otherwise a header followed by one formatted line per message; the
selected window is a suffix of the chronologically ordered history, so the
lines appear oldest first. -/
theorem C6_read_messages :
    ∀ (timeStr : Nat → String) (st : ServerState) (limit : Option Int),
      (st.isConnected = false →
        handleReadMessages timeStr st limit = textResult notConnectedReadText) ∧
      (st.isConnected = true → getMessages st.clientMessages limit = [] →
        handleReadMessages timeStr st limit = textResult noMessagesReadText) ∧
      (st.isConnected = true → getMessages st.clientMessages limit ≠ [] →
        handleReadMessages timeStr st limit
          = textResult ("Messages from " ++ st.token ++ " (showing "
              ++ toString (getMessages st.clientMessages limit).length
              ++ " messages):\n\n"
              ++ String.intercalate "\n"
                  ((getMessages st.clientMessages limit).map (formatLine timeStr)))) ∧
      (getMessages st.clientMessages limit) <:+ st.clientMessages := by
  intro f st lim
  refine ⟨?_, ?_, ?_, ?_⟩
  · intro h
    simp [handleReadMessages, h]
  · intro hc he
    simp [handleReadMessages, hc, he]
  · intro hc hne
    simp [handleReadMessages, hc, List.length_eq_zero, hne]
  · unfold getMessages
    cases lim with
    | none => exact List.suffix_refl _
    | some l =>
      by_cases hl : l ≤ 0
      · simp only [if_pos hl]
        exact List.nil_suffix
      · simp only [if_neg hl]
        exact List.drop_suffix _ _

/-- C6 witness: a concrete connected state with one stored message, read
without a limit, discharging the connectedness and nonemptiness
hypotheses of the formatted branch. -/
theorem C6_witness :
    handleReadMessages toString stC6 none
      = textResult ("Messages from " ++ stC6.token ++ " (showing "
          ++ toString (getMessages stC6.clientMessages none).length
          ++ " messages):\n\n"
          ++ String.intercalate "\n"
              ((getMessages stC6.clientMessages none).map (formatLine toString))) :=
  (C6_read_messages toString stC6 none).2.2.1 rfl (by decide)

/-- Every branch of handleReadMessages produces a textResult. -/
lemma handleReadMessages_shape (timeStr : Nat → String) (st : ServerState)
    (limit : Option Int) :
    ∃ s, handleReadMessages timeStr st limit = textResult s := by
  simp only [handleReadMessages]
  split
  · exact ⟨_, rfl⟩
  · split
    · exact ⟨_, rfl⟩
    · exact ⟨_, rfl⟩

/-- Every branch of handleGetLatestMessage produces a textResult. -/
lemma handleGetLatestMessage_shape (timeStr : Nat → String) (st : ServerState) :
    ∃ s, handleGetLatestMessage timeStr st = textResult s := by
  simp only [handleGetLatestMessage]
  split
  · exact ⟨_, rfl⟩
  · split
    · exact ⟨_, rfl⟩
    · exact ⟨_, rfl⟩

/-- Every branch of handleSendMessage produces a textResult. -/
lemma handleSendMessage_shape (st : ServerState) (msg : String) :
    ∃ s, (handleSendMessage st msg).1 = textResult s := by
  simp only [handleSendMessage]
  split
  · exact ⟨_, rfl⟩
  · exact ⟨_, rfl⟩

/-- C8: every successfully dispatched tool call, for every tool and every
state, yields exactly one content block, and that block has type text. -/
theorem C8_single_text_block :
    ∀ (timeStr : Nat → String) (st : ServerState) (name : String) (args : ToolArgs)
      (r : ToolResult),
      dispatch timeStr st name args = Except.ok r →
      r.content.length = 1 ∧ ∀ c ∈ r.content, c.type = "text" := by
  intro f st nm args r h
  unfold dispatch at h
  split at h
  · obtain ⟨s, hs⟩ := handleReadMessages_shape f st args.limit
    injection h with h
    subst h
    rw [hs]
    simp [textResult]
  · split at h
    · obtain ⟨s, hs⟩ := handleGetLatestMessage_shape f st
      injection h with h
      subst h
      rw [hs]
      simp [textResult]
    · split at h
      · obtain ⟨s, hs⟩ := handleSendMessage_shape st args.message
        injection h with h
        subst h
        rw [hs]
        simp [textResult]
      · split at h
        · injection h with h
          subst h
          simp [handleGetStatus, textResult]
        · exact absurd h (by simp)

/-- C8 witness: a concrete dispatched GetStatus call. -/
theorem C8_witness :
    (handleGetStatus (initState "T")).content.length = 1 ∧
      ∀ c ∈ (handleGetStatus (initState "T")).content, c.type = "text" :=
  C8_single_text_block toString (initState "T") "PumpFunChat_GetStatus"
    { limit := none, message := "" } (handleGetStatus (initState "T")) (by rfl)

/-- C9: when connected, SendMessage performs no validation of its argument:
any message string, the empty string included, is forwarded verbatim to the
collaborator send and acknowledged with the success text. -/
theorem C9_no_validation :
    ∀ (st : ServerState) (msg : String),
      st.isConnected = true →
      handleSendMessage st msg = (textResult (sentText msg), some msg) := by
  intro st msg h
  simp [handleSendMessage, h]

/-- C9 witness: the empty string is forwarded unchanged and acknowledged,
despite the declared non-empty-string parameter. -/
theorem C9_witness :
    handleSendMessage stConn "" = (textResult (sentText ""), some "") :=
  C9_no_validation stConn "" rfl

/-- A non-message event never changes the message buffer. -/
lemma step_buffer_of_not_message (st : ServerState) (e : Event)
    (h : isMessageEvent e = false) :
    (step st e).messageBuffer = st.messageBuffer := by
  cases e with
  | message m => exact absurd h (by simp [isMessageEvent])
  | connected => rfl
  | messageHistory ms => rfl
  | error s => rfl
  | serverError s => rfl
  | disconnected => rfl

/-- Folding a message-free event sequence never changes the buffer. -/
lemma foldl_buffer_of_not_message (events : List Event) (st : ServerState)
    (h : ∀ e ∈ events, isMessageEvent e = false) :
    (events.foldl step st).messageBuffer = st.messageBuffer := by
  induction events generalizing st with
  | nil => rfl
  | cons e rest ih =>
    rw [List.foldl_cons, ih _ (fun x hx => h x (List.mem_cons_of_mem e hx)),
      step_buffer_of_not_message st e (h e (List.mem_cons_self e rest))]

/-- C10: after any event sequence containing no message events — however
many connected, messageHistory, error, serverError or disconnected events
it holds — the buffer is empty and GetStatus reports a count of 0. -/
theorem C10_count_only_message_events :
    ∀ (tok : String) (events : List Event),
      (∀ e ∈ events, isMessageEvent e = false) →
      (events.foldl step (initState tok)).messageBuffer = [] ∧
      handleGetStatus (events.foldl step (initState tok))
        = textResult ("Token: " ++ tok ++ "\nConnection Status: "
            ++ (if (events.foldl step (initState tok)).isConnected then "Connected"
                else "Disconnected")
            ++ "\nMessages in buffer: 0") := by
  intro tok events h
  have hbuf : (events.foldl step (initState tok)).messageBuffer = [] :=
    foldl_buffer_of_not_message events _ h
  refine ⟨hbuf, ?_⟩
  unfold handleGetStatus
  rw [foldl_step_token, hbuf]
  have h0 : toString ([] : List ChatMessage).length = "0" := rfl
  have hx : ∀ y : String, y ++ "\nMessages in buffer: " ++ "0"
      = y ++ "\nMessages in buffer: 0" := by
    intro y
    rw [String.append_assoc]
    exact congrArg (fun z => y ++ z) (by decide)
  rw [h0, hx]
  rfl

/-- C10 witness: a concrete sequence with every non-message event kind,
including an authentication-failure serverError, leaves the count at 0. -/
theorem C10_witness :
    (eventsC10.foldl step (initState "T")).messageBuffer = [] ∧
    handleGetStatus (eventsC10.foldl step (initState "T"))
      = textResult ("Token: " ++ "T" ++ "\nConnection Status: "
          ++ (if (eventsC10.foldl step (initState "T")).isConnected then "Connected"
              else "Disconnected")
          ++ "\nMessages in buffer: 0") :=
  C10_count_only_message_events "T" eventsC10 (by decide)

end PumpFunChat
